import Mathlib

set_option maxRecDepth 100000

/-!
Shallow embedding of the SOAP processing engine of `soap-engine.js`
(Medical Scribe v1.0): simulated diarization, clinical data extraction
(CID-10 lookup, vital signs, medications, allergies, comorbidities,
severity), SOAP note composition, and the `process` facade.

Texts are modelled as `List Char` (one element per UTF-16 code unit of the
JavaScript string; every character that occurs in the engine's tables and
in the inputs considered here is a single BMP code unit, so indices agree
with JavaScript string indices).  JavaScript regular expressions are
embedded either as terms of a small derivative-based regex calculus (for
the boolean `test` uses) or as bespoke first-match functions that mirror
the backtracking order of the source pattern (for the `match` uses whose
captures the engine consumes).
-/

/-- Text as a list of characters (JS string model). -/
abbrev Str := List Char

/-- JS `toLowerCase` restricted to the Basic Latin and Latin-1 letters that
occur in the engine's tables and inputs: `A`-`Z` and `À`-`Þ` (except `×`)
map to the code point 32 higher; everything else is fixed. -/
def jsToLower (c : Char) : Char :=
  if 'A' ≤ c ∧ c ≤ 'Z' then Char.ofNat (c.toNat + 32)
  else if 'À' ≤ c ∧ c ≤ 'Þ' ∧ c ≠ '×' then Char.ofNat (c.toNat + 32)
  else c

/-- JS `toUpperCase` on the same character range (`a`-`z`, `à`-`þ` except `÷`). -/
def jsToUpper (c : Char) : Char :=
  if 'a' ≤ c ∧ c ≤ 'z' then Char.ofNat (c.toNat - 32)
  else if 'à' ≤ c ∧ c ≤ 'þ' ∧ c ≠ '÷' then Char.ofNat (c.toNat - 32)
  else c

def lowerStr (s : Str) : Str := s.map jsToLower

def upperStr (s : Str) : Str := s.map jsToUpper

/-- JS whitespace class `\s` (the members relevant to this engine:
space, tab, line feed, carriage return, vertical tab, form feed, NBSP). -/
def jsIsSpace (c : Char) : Bool :=
  c == ' ' || c == '\t' || c == '\n' || c == '\x0d' ||
  c == '\x0b' || c == '\x0c' || c == ' '

/-- JS `String.prototype.trim`. -/
def trimJS (s : Str) : Str :=
  ((s.dropWhile jsIsSpace).reverse.dropWhile jsIsSpace).reverse

/-- JS `haystack.includes(needle)`: `needle` occurs as a contiguous substring. -/
def containsSub (needle : Str) : Str → Bool
  | [] => needle.isEmpty
  | c :: cs => needle.isPrefixOf (c :: cs) || containsSub needle cs

/-- JS `haystack.indexOf(needle)` (as an `Option` instead of `-1`). -/
def indexOfSub (needle : Str) : Str → Option Nat
  | [] => if needle.isEmpty then some 0 else none
  | c :: cs =>
    if needle.isPrefixOf (c :: cs) then some 0
    else (indexOfSub needle cs).map (· + 1)

/-- JS `s.substring(a, b)` for `a ≤ b` (the end index is clamped to the length). -/
def sliceChars (s : Str) (a b : Nat) : Str := (s.drop a).take (b - a)

/-- JS `parseInt` on a non-empty all-digit capture. -/
def digitsVal (s : Str) : Nat :=
  s.foldl (fun acc c => 10 * acc + (c.toNat - 48)) 0

def isDigitCh (c : Char) : Bool := '0' ≤ c && c ≤ '9'

/-! ### A small regex calculus (Brzozowski derivatives) for `RegExp.test` uses -/

/-- Regular expressions over `Char`, sufficient for the boolean (`test`)
patterns of the engine. `cls` is a single-character class. -/
inductive RE where
  | emp : RE
  | eps : RE
  | cls : (Char → Bool) → RE
  | seq : RE → RE → RE
  | alt : RE → RE → RE
  | star : RE → RE

/-- Smart sequencing (collapses the empty language and ε). -/
def mkSeq : RE → RE → RE
  | .emp, _ => .emp
  | .eps, b => b
  | _, .emp => .emp
  | a, .eps => a
  | a, b => .seq a b

/-- Smart alternation (collapses the empty language). -/
def mkAlt : RE → RE → RE
  | .emp, b => b
  | a, .emp => a
  | a, b => .alt a b

def nullable : RE → Bool
  | .emp => false
  | .eps => true
  | .cls _ => false
  | .seq a b => nullable a && nullable b
  | .alt a b => nullable a || nullable b
  | .star _ => true

def rderiv : RE → Char → RE
  | .emp, _ => .emp
  | .eps, _ => .emp
  | .cls p, c => if p c then .eps else .emp
  | .seq a b, c =>
    if nullable a then mkAlt (mkSeq (rderiv a c) b) (rderiv b c)
    else mkSeq (rderiv a c) b
  | .alt a b, c => mkAlt (rderiv a c) (rderiv b c)
  | .star a, c => mkSeq (rderiv a c) (.star a)

/-- Does `r` match some prefix of `s` (used for `^`-anchored tests)? -/
def matchPre : RE → Str → Bool
  | r, [] => nullable r
  | r, c :: cs => nullable r || matchPre (rderiv r c) cs

/-- Does `r` match a substring of `s` starting anywhere (JS `test` of an
unanchored pattern)? -/
def reFind : RE → Str → Bool
  | r, [] => nullable r
  | r, c :: cs => matchPre r (c :: cs) || reFind r cs

def rchar (c : Char) : RE := .cls (fun x => x == c)

/-- Literal word (the boolean patterns are applied to already-lowercased
text, so literals are written in lowercase). -/
def rstr (s : String) : RE := s.data.foldr (fun c r => mkSeq (rchar c) r) .eps

def ralts : List RE → RE
  | [] => .emp
  | r :: rs => rs.foldl mkAlt r

def ropt (r : RE) : RE := .alt r .eps

def rplus (r : RE) : RE := .seq r (.star r)

/-- Regex `.` (any character except a line feed). -/
def rdot : RE := .cls (fun c => c != '\n')

/-- Class `[\s-]`. -/
def rwsDash : RE := .cls (fun c => jsIsSpace c || c == '-')

/-! ### Diarization (`diarize`) -/

/-- Doctor pattern 1 (anchored): `^(doutor|dra?\.?|médico)`. -/
def docPat1 : RE :=
  ralts [rstr "doutor",
         mkSeq (rstr "dr") (mkSeq (ropt (rchar 'a')) (ropt (rchar '.'))),
         rstr "médico"]

/-- Doctor pattern 2: `vamos (examinar|verificar|avaliar|prescrever)`. -/
def docPat2 : RE :=
  mkSeq (rstr "vamos ")
    (ralts [rstr "examinar", rstr "verificar", rstr "avaliar", rstr "prescrever"])

/-- Doctor pattern 3: `minha (hipótese|avaliação|conduta)`. -/
def docPat3 : RE :=
  mkSeq (rstr "minha ") (ralts [rstr "hipótese", rstr "avaliação", rstr "conduta"])

/-- Doctor pattern 4: `(prescrevo|solicito|recomendo|indico|oriento)`. -/
def docPat4 : RE :=
  ralts [rstr "prescrevo", rstr "solicito", rstr "recomendo", rstr "indico",
         rstr "oriento"]

/-- Doctor pattern 5: `(exame físico|ausculta|palpação|inspeção)`. -/
def docPat5 : RE :=
  ralts [rstr "exame físico", rstr "ausculta", rstr "palpação", rstr "inspeção"]

/-- Doctor pattern 6: `(pa |fc |fr |spo2|sat |temperatura|sinais vitais)`. -/
def docPat6 : RE :=
  ralts [rstr "pa ", rstr "fc ", rstr "fr ", rstr "spo2", rstr "sat ",
         rstr "temperatura", rstr "sinais vitais"]

/-- Doctor pattern 7: `(diagnóstico|prognóstico|conduta|plano)`. -/
def docPat7 : RE :=
  ralts [rstr "diagnóstico", rstr "prognóstico", rstr "conduta", rstr "plano"]

/-- Doctor pattern 8 (anchored): `^(vou |preciso |solicitar|pedir)`. -/
def docPat8 : RE :=
  ralts [rstr "vou ", rstr "preciso ", rstr "solicitar", rstr "pedir"]

/-- Patient pattern 1 (anchored): `^(paciente|pac\.?)`. -/
def patPat1 : RE :=
  ralts [rstr "paciente", mkSeq (rstr "pac") (ropt (rchar '.'))]

/-- Patient pattern 2: `(estou sentindo|sinto|tenho sentido|comecei)`. -/
def patPat2 : RE :=
  ralts [rstr "estou sentindo", rstr "sinto", rstr "tenho sentido", rstr "comecei"]

/-- Patient pattern 3: `(dói|doendo|doer|incômodo)`. -/
def patPat3 : RE :=
  ralts [rstr "dói", rstr "doendo", rstr "doer", rstr "incômodo"]

/-- Patient pattern 4: `(faz .+ dias|há .+ dias|desde)`. -/
def patPat4 : RE :=
  ralts [mkSeq (rstr "faz ") (mkSeq (rplus rdot) (rstr " dias")),
         mkSeq (rstr "há ") (mkSeq (rplus rdot) (rstr " dias")),
         rstr "desde"]

/-- Patient pattern 5: `(meu|minha) (dor|febre|tosse|mal[\s-]?estar)`. -/
def patPat5 : RE :=
  mkSeq (ralts [rstr "meu", rstr "minha"])
    (mkSeq (rchar ' ')
      (ralts [rstr "dor", rstr "febre", rstr "tosse",
              mkSeq (rstr "mal") (mkSeq (ropt rwsDash) (rstr "estar"))]))

/-- Patient pattern 6: `(tomo|uso|tomando|usando) .+(mg|ml|comprimido)`. -/
def patPat6 : RE :=
  mkSeq (ralts [rstr "tomo", rstr "uso", rstr "tomando", rstr "usando"])
    (mkSeq (rchar ' ')
      (mkSeq (rplus rdot) (ralts [rstr "mg", rstr "ml", rstr "comprimido"])))

/-- Patient pattern 7: `(me sinto|sinto[\s-]?me|estou)`. -/
def patPat7 : RE :=
  ralts [rstr "me sinto",
         mkSeq (rstr "sinto") (mkSeq (ropt rwsDash) (rstr "me")),
         rstr "estou"]

/-- Patient pattern 8: `(queixa|queixo|reclamo)`. -/
def patPat8 : RE :=
  ralts [rstr "queixa", rstr "queixo", rstr "reclamo"]

/-- The eight doctor-style tests, in declaration order.  All source patterns
carry the `i` flag; they are applied here to the lowercased line. -/
def doctorTests : List (Str → Bool) :=
  [matchPre docPat1, reFind docPat2, reFind docPat3, reFind docPat4,
   reFind docPat5, reFind docPat6, reFind docPat7, matchPre docPat8]

/-- The eight patient-style tests, in declaration order. -/
def patientTests : List (Str → Bool) :=
  [matchPre patPat1, reFind patPat2, reFind patPat3, reFind patPat4,
   reFind patPat5, reFind patPat6, reFind patPat7, matchPre patPat8]

/-- `docScore`: number of doctor patterns that match the line. -/
def docScore (line : Str) : Nat :=
  (doctorTests.map (fun t => if t (lowerStr line) then 1 else 0)).sum

/-- `patScore`: number of patient patterns that match the line. -/
def patScore (line : Str) : Nat :=
  (patientTests.map (fun t => if t (lowerStr line) then 1 else 0)).sum

/-- Sentence separators of the split `/[\.\n]+/`. -/
def isSepDot (c : Char) : Bool := c == '.' || c == '\n'

/-- Accumulator worker for `splitRuns`: `cur` is the current run,
reversed. -/
def splitRunsAux : Str → Str → List Str
  | cur, [] => if cur.isEmpty then [] else [cur.reverse]
  | cur, c :: cs =>
    if isSepDot c then
      if cur.isEmpty then splitRunsAux [] cs
      else cur.reverse :: splitRunsAux [] cs
    else splitRunsAux (c :: cur) cs

/-- Maximal runs of non-separator characters (the non-empty pieces of the JS
split on `/[\.\n]+/`; the empty pieces the JS split can produce are removed
by the `length > 5` filter below in either model). -/
def splitRuns (s : Str) : List Str := splitRunsAux [] s

/-- `rawText.split(/[\.\n]+/).map(l => l.trim()).filter(l => l.length > 5)`. -/
def transcriptLines (raw : Str) : List Str :=
  ((splitRuns raw).map trimJS).filter (fun l => l.length > 5)

inductive Speaker where
  | medico : Speaker
  | paciente : Speaker
  | indefinido : Speaker
deriving DecidableEq, Repr

structure Utterance where
  speaker : Speaker
  text : Str
deriving DecidableEq, Repr

/-- Classification of one retained line (the `if`/`else` chain of `diarize`;
the initial `'indefinido'` value of the source is dead because the chain is
exhaustive). -/
def classifyLine (line : Str) : Speaker :=
  let d := docScore line
  let p := patScore line
  if d > p then Speaker.medico
  else if p > d then Speaker.paciente
  else if line.length > 60 then Speaker.paciente
  else Speaker.medico

/-- `diarize(rawText)`. -/
def diarize (raw : Str) : List Utterance :=
  (transcriptLines raw).map (fun line => ⟨classifyLine line, line⟩)

/-! ### Vital-sign extraction (`extractVitalSigns`)

Each of the five source regexes is embedded as a bespoke first-match
function that follows the JS backtracking order: the leftmost starting
position wins; at a position, alternatives are tried in declaration order,
greedy pieces longest-first and lazy pieces shortest-first.  Every matcher
takes the suffix at the candidate position and returns the suffix after the
match together with the numeric captures, so the matched substring `m[0]`
is recovered from the consumed length. -/

/-- Match a literal case-insensitively (the literal is given lowercased),
returning the remaining suffix. -/
def litCI : Str → Str → Option Str
  | [], s => some s
  | _ :: _, [] => none
  | l :: ls, c :: cs => if jsToLower c == l then litCI ls cs else none

/-- Try `f n, f (n-1), …, f lo` (greedy repetition backtracking order). -/
def tryDown {α : Type} (lo : Nat) (f : Nat → Option α) : Nat → Option α
  | 0 => if lo = 0 then f 0 else none
  | n + 1 =>
    if n + 1 < lo then none
    else match f (n + 1) with
      | some r => some r
      | none => tryDown lo f n

/-- Lazy one-or-more repetition of class `p` (`p+?`): consume the shortest
non-zero run of `p`-characters for which the continuation `k` succeeds. -/
def lazyPlus {α : Type} (p : Char → Bool) (k : Str → Option α) : Str → Option α
  | [] => none
  | c :: cs =>
    if p c then
      match k cs with
      | some r => some r
      | none => lazyPlus p k cs
    else none

/-- Greedy one-or-more repetition of class `p` (`p+`): consume the longest
run first, giving characters back one at a time on continuation failure. -/
def greedyPlus {α : Type} (p : Char → Bool) (k : Str → Option α) (s : Str) :
    Option α :=
  let run := (s.takeWhile p).length
  if run = 0 then none else tryDown 1 (fun n => k (s.drop n)) run

/-- Greedy counted repetition `p{lo,hi}` handing the consumed characters to
the continuation (used for the digit captures `\d{lo,hi}`). -/
def repDigits {α : Type} (lo hi : Nat) (k : Str → Str → Option α) (s : Str) :
    Option α :=
  let run := (s.takeWhile isDigitCh).length
  if run < lo then none
  else tryDown lo (fun n => k (s.take n) (s.drop n)) (min hi run)

/-- Separator class `[:\s]`. -/
def isSepCh (c : Char) : Bool := c == ':' || jsIsSpace c

/-- Greedy `\s*` whose continuation cannot start with a whitespace
character (all `\s*` occurrences in the vitals regexes are followed by a
digit, `[x\/]`, `°`, `c`, `%`, `bpm`, `irpm`/`rpm` or the match end, so the
maximal run is the unique viable split). -/
def skipWs (s : Str) : Str := s.dropWhile jsIsSpace

/-- `(?:bpm)?`-style greedy optional case-insensitive literal tail. -/
def optLit (l : String) (s : Str) : Str :=
  match litCI l.data s with
  | some r => r
  | none => s

/-- Greedy optional single character from class `p`. -/
def optCls (p : Char → Bool) : Str → Str
  | [] => []
  | c :: cs => if p c then cs else c :: cs

/-- PA regex 1 at the current position:
`(?:pa|pressão\s*arterial)[:\s]+?(\d{2,3})\s*[x\/]\s*(\d{2,3})`.
Returns `(suffix after match, systolic, diastolic)`. -/
def paHere1 (s : Str) : Option (Str × Nat × Nat) :=
  let cont := fun s0 =>
    lazyPlus isSepCh (fun s1 =>
      repDigits 2 3 (fun sys s2 =>
        match skipWs s2 with
        | c :: s3 =>
          if jsToLower c == 'x' || c == '/' then
            repDigits 2 3 (fun dia s4 => some (s4, digitsVal sys, digitsVal dia))
              (skipWs s3)
          else none
        | [] => none) s1) s0
  match litCI "pa".data s with
  | some s0 => cont s0
  | none =>
    (litCI "pressão".data s).bind fun sa =>
      (litCI "arterial".data (skipWs sa)).bind cont

/-- PA regex 2 at the current position:
`pressão\s+(\d{2,3})\s*(?:por|x|\/)\s*(\d{2,3})`. -/
def paHere2 (s : Str) : Option (Str × Nat × Nat) :=
  (litCI "pressão".data s).bind fun s0 =>
    greedyPlus jsIsSpace (fun s1 =>
      repDigits 2 3 (fun sys s2 =>
        let sep := fun s3 =>
          match litCI "por".data s3 with
          | some r => some r
          | none =>
            match s3 with
            | c :: s4 => if jsToLower c == 'x' || c == '/' then some s4 else none
            | [] => none
        (sep (skipWs s2)).bind fun s5 =>
          repDigits 2 3 (fun dia s6 => some (s6, digitsVal sys, digitsVal dia))
            (skipWs s5)) s1) s0

/-- FC regex at the current position:
`(?:fc|frequência\s*cardíaca|pulso)[:\s]+?(\d{2,3})\s*(?:bpm)?`. -/
def fcHere (s : Str) : Option (Str × Nat) :=
  let cont := fun s0 =>
    lazyPlus isSepCh (fun s1 =>
      repDigits 2 3 (fun v s2 =>
        some (optLit "bpm" (skipWs s2), digitsVal v)) s1) s0
  match (litCI "fc".data s).bind cont with
  | some r => some r
  | none =>
    match ((litCI "frequência".data s).bind fun sa =>
        (litCI "cardíaca".data (skipWs sa)).bind cont) with
    | some r => some r
    | none => (litCI "pulso".data s).bind cont

/-- Temperature regex at the current position:
`(?:temperatura|temp|tax)[:\s]+?(\d{2}[.,]?\d?)\s*°?\s*c?`.
The captured value is `parseFloat(capture.replace(',', '.'))`, modelled
exactly as a rational. -/
def tempHere (s : Str) : Option (Str × ℚ) :=
  let cont := fun s0 =>
    lazyPlus isSepCh (fun s1 =>
      match s1 with
      | a :: b :: s2 =>
        if isDigitCh a && isDigitCh b then
          let base : ℚ := (10 * (a.toNat - 48) + (b.toNat - 48) : Nat)
          -- `[.,]?\d?`, both greedy: a separator may be followed by a
          -- fractional digit, and with no separator `\d?` may consume a
          -- third integer digit (capture `"ddd"`, parsed as an integer).
          let (v, s3) :=
            match s2 with
            | c :: s2a =>
              if c == '.' || c == ',' then
                match s2a with
                | d :: s2b =>
                  if isDigitCh d then (base + ((d.toNat - 48 : Nat) : ℚ) / 10, s2b)
                  else (base, s2a)
                | [] => (base, s2a)
              else if isDigitCh c then
                (((10 * (10 * (a.toNat - 48) + (b.toNat - 48)) +
                    (c.toNat - 48) : Nat) : ℚ), s2a)
              else (base, s2)
            | [] => (base, s2)
          some (optLit "c" (skipWs (optCls (· == '°') (skipWs s3))), v)
        else none
      | _ => none) s0
  match (litCI "temperatura".data s).bind cont with
  | some r => some r
  | none =>
    match (litCI "temp".data s).bind cont with
    | some r => some r
    | none => (litCI "tax".data s).bind cont

/-- SatO2 regex at the current position:
`(?:sat(?:ura[çc][aã]o)?|spo2|sato2)[:\s]+?(\d{2,3})\s*%?`. -/
def satHere (s : Str) : Option (Str × Nat) :=
  let cont := fun s0 =>
    lazyPlus isSepCh (fun s1 =>
      repDigits 2 3 (fun v s2 =>
        some (optCls (· == '%') (skipWs s2), digitsVal v)) s1) s0
  let group := fun sa =>
    (litCI "ura".data sa).bind fun sb =>
      match sb with
      | c1 :: c2 :: sc =>
        if (jsToLower c1 == 'ç' || jsToLower c1 == 'c') &&
           (jsToLower c2 == 'a' || jsToLower c2 == 'ã') then
          litCI "o".data sc
        else none
      | _ => none
  match (litCI "sat".data s).bind (fun sa =>
      match (group sa).bind cont with
      | some r => some r
      | none => cont sa) with
  | some r => some r
  | none =>
    match (litCI "spo2".data s).bind cont with
    | some r => some r
    | none => (litCI "sato2".data s).bind cont

/-- FR regex at the current position:
`(?:fr|frequência\s*respiratória)[:\s]+?(\d{1,2})\s*(?:irpm|rpm)?`. -/
def frHere (s : Str) : Option (Str × Nat) :=
  let cont := fun s0 =>
    lazyPlus isSepCh (fun s1 =>
      repDigits 1 2 (fun v s2 =>
        let s3 := skipWs s2
        let s4 :=
          match litCI "irpm".data s3 with
          | some r => r
          | none => optLit "rpm" s3
        some (s4, digitsVal v)) s1) s0
  match (litCI "fr".data s).bind cont with
  | some r => some r
  | none =>
    (litCI "frequência".data s).bind fun sa =>
      (litCI "respiratória".data (skipWs sa)).bind cont

/-- Leftmost match: try `mh` at every position, ascending; return the start
position and the matcher's payload. -/
def searchFrom {α : Type} (mh : Str → Option α) : Str → Option (Nat × α)
  | [] =>
    match mh [] with
    | some a => some (0, a)
    | none => none
  | s@(_ :: cs) =>
    match mh s with
    | some a => some (0, a)
    | none => (searchFrom mh cs).map (fun r => (r.1 + 1, r.2))

/-- `m[0].trim()` for a match starting at `i` whose matcher left `rest`
unconsumed. -/
def rawAt (text : Str) (i : Nat) (rest : Str) : Str :=
  trimJS (sliceChars text i (text.length - rest.length))

structure PaMedida where
  sistolica : Nat
  diastolica : Nat
  raw : Str
deriving DecidableEq, Repr

structure Medida where
  valor : Nat
  raw : Str
deriving DecidableEq, Repr

structure MedidaTemp where
  valor : ℚ
  raw : Str
deriving DecidableEq, Repr

structure SinaisVitais where
  pa : Option PaMedida
  fc : Option Medida
  temperatura : Option MedidaTemp
  sato2 : Option Medida
  fr : Option Medida
deriving DecidableEq, Repr

/-- `extractVitalSigns(text)`. -/
def extractVitalSigns (text : Str) : SinaisVitais :=
  let pa :=
    match searchFrom paHere1 text with
    | some (i, rest, sys, dia) => some ⟨sys, dia, rawAt text i rest⟩
    | none =>
      match searchFrom paHere2 text with
      | some (i, rest, sys, dia) => some ⟨sys, dia, rawAt text i rest⟩
      | none => none
  let fc :=
    match searchFrom fcHere text with
    | some (i, rest, v) => some (⟨v, rawAt text i rest⟩ : Medida)
    | none => none
  let temperatura :=
    match searchFrom tempHere text with
    | some (i, rest, v) => some (⟨v, rawAt text i rest⟩ : MedidaTemp)
    | none => none
  let sato2 :=
    match searchFrom satHere text with
    | some (i, rest, v) => some (⟨v, rawAt text i rest⟩ : Medida)
    | none => none
  let fr :=
    match searchFrom frHere text with
    | some (i, rest, v) => some (⟨v, rawAt text i rest⟩ : Medida)
    | none => none
  ⟨pa, fc, temperatura, sato2, fr⟩

/-! ### Clinical data extraction (`extractClinicalData`) -/

structure Cid where
  code : String
  desc : String
deriving DecidableEq, Repr

/-- The CID-10 table, as `(keyword, code, desc)` in declaration order.  The
JS object's `Object.entries` iteration order is its insertion order (all
keys are non-index strings).  The table is written as the eleven entries
declared before `'infarto'` followed by the rest, so that the priority
theorems can name the prefix; the concatenation is the literal source
order. -/
def cidBeforeInfarto : List (String × String × String) :=
  [("sepse grave", "A41.9", "Sepse grave"),
   ("choque séptico", "R65.1", "Choque séptico"),
   ("sirs", "R65.1", "Síndrome da resposta inflamatória sistêmica"),
   ("bacteremia", "A49.9", "Bacteremia"),
   ("sepse", "A41", "Septicemia"),
   ("iamcsst", "I21.0", "IAM com supra de ST (IAMCSST)"),
   ("iamssst", "I21.4", "IAM sem supra de ST (IAMSSST)"),
   ("síndrome coronariana aguda", "I24.9", "Síndrome coronariana aguda"),
   ("síndrome coronariana", "I24.9", "Síndrome coronariana aguda"),
   ("angina instável", "I20.0", "Angina instável"),
   ("iam", "I21", "Infarto agudo do miocárdio")]

def cidFromInfarto : List (String × String × String) :=
  [("infarto", "I21", "Infarto agudo do miocárdio"),
   ("avc isquêmico", "I63", "AVC isquêmico"),
   ("avc hemorrágico", "I61", "AVC hemorrágico"),
   ("ataque isquêmico transitório", "G45", "Ataque isquêmico transitório (AIT)"),
   ("ait", "G45", "Ataque isquêmico transitório (AIT)"),
   ("avc", "I64", "Acidente vascular cerebral"),
   ("derrame", "I64", "Acidente vascular cerebral"),
   ("choque hipovolêmico", "R57.1", "Choque hipovolêmico"),
   ("choque cardiogênico", "R57.0", "Choque cardiogênico"),
   ("choque anafilático", "T78.2", "Choque anafilático"),
   ("choque distributivo", "R57.8", "Choque distributivo"),
   ("sdra", "J80", "Síndrome do desconforto respiratório agudo"),
   ("insuficiência respiratória aguda", "J96.0", "Insuficiência respiratória aguda"),
   ("insuficiência respiratória", "J96", "Insuficiência respiratória"),
   ("parada cardiorrespiratória", "I46", "Parada cardiorrespiratória"),
   ("pcr", "I46", "Parada cardiorrespiratória"),
   ("ventilação mecânica", "Z99.1", "Dependência de ventilação mecânica"),
   ("rabdomiólise", "M62.8", "Rabdomiólise"),
   ("civd", "D65", "Coagulação intravascular disseminada"),
   ("politrauma", "T07", "Politraumatismo"),
   ("edema cerebral", "G93.6", "Edema cerebral"),
   ("status epilepticus", "G41", "Estado de mal epiléptico"),
   ("cetoacidose diabética", "E10.1", "Cetoacidose diabética"),
   ("crise hipertensiva", "I16", "Crise hipertensiva"),
   ("tamponamento cardíaco", "I31.4", "Tamponamento cardíaco"),
   ("tromboembolismo pulmonar", "I26", "Tromboembolismo pulmonar"),
   ("tep", "I26", "Tromboembolismo pulmonar"),
   ("hipertensão", "I10", "Hipertensão essencial (primária)"),
   ("pressão alta", "I10", "Hipertensão essencial (primária)"),
   ("diabetes tipo 2", "E11", "Diabetes mellitus tipo 2"),
   ("diabetes tipo 1", "E10", "Diabetes mellitus tipo 1"),
   ("diabetes", "E11", "Diabetes mellitus tipo 2"),
   ("asma", "J45", "Asma"),
   ("pneumonia", "J18", "Pneumonia"),
   ("covid", "U07.1", "COVID-19"),
   ("gripe", "J11", "Influenza"),
   ("infecção urinária", "N39.0", "Infecção do trato urinário"),
   ("itu", "N39.0", "Infecção do trato urinário"),
   ("cefaleia", "R51", "Cefaleia"),
   ("dor de cabeça", "R51", "Cefaleia"),
   ("enxaqueca", "G43", "Enxaqueca"),
   ("lombalgia", "M54.5", "Lombalgia"),
   ("dor lombar", "M54.5", "Lombalgia"),
   ("dor nas costas", "M54.5", "Lombalgia"),
   ("gastrite", "K29", "Gastrite"),
   ("dor abdominal", "R10", "Dor abdominal"),
   ("dor no peito", "R07", "Dor torácica"),
   ("dor torácica", "R07", "Dor torácica"),
   ("febre", "R50", "Febre de origem desconhecida"),
   ("tosse", "R05", "Tosse"),
   ("dispneia", "R06.0", "Dispneia"),
   ("falta de ar", "R06.0", "Dispneia"),
   ("ansiedade", "F41", "Transtornos ansiosos"),
   ("depressão", "F32", "Episódio depressivo"),
   ("insônia", "G47.0", "Insônia"),
   ("alergia", "T78.4", "Alergia não especificada"),
   ("rinite", "J30", "Rinite alérgica"),
   ("sinusite", "J32", "Sinusite crônica"),
   ("otite", "H66", "Otite média"),
   ("dor de ouvido", "H66", "Otite média"),
   ("faringite", "J02", "Faringite aguda"),
   ("dor de garganta", "J02", "Faringite aguda"),
   ("dengue", "A90", "Dengue"),
   ("diarreia", "A09", "Diarreia e gastroenterite"),
   ("vômito", "R11", "Náusea e vômitos"),
   ("fratura", "T14.2", "Fratura de região do corpo não especificada"),
   ("entorse", "T14.3", "Luxação, entorse de região não especificada"),
   ("icc", "I50", "Insuficiência cardíaca"),
   ("insuficiência cardíaca", "I50", "Insuficiência cardíaca"),
   ("dpoc", "J44", "Doença pulmonar obstrutiva crônica"),
   ("insuficiência renal", "N18", "Doença renal crônica"),
   ("irc", "N18", "Doença renal crônica")]

def CID_DATABASE : List (String × String × String) :=
  cidBeforeInfarto ++ cidFromInfarto

/-- Scan a CID table in order and return the `{code, desc}` of the first
entry whose keyword is a substring of the (lowercased) text. -/
def firstCid : List (String × String × String) → Str → Option Cid
  | [], _ => none
  | (kw, code, desc) :: rest, lower =>
    if containsSub kw.data lower then some ⟨code, desc⟩
    else firstCid rest lower

/-- The medication vocabulary `MED_PATTERNS`, in declaration order. -/
def MED_PATTERNS : List String :=
  ["dipirona", "paracetamol", "ibuprofeno", "amoxicilina", "azitromicina",
   "losartana", "metformina", "omeprazol", "enalapril", "atenolol",
   "hidroclorotiazida", "sinvastatina", "captopril", "anlodipino",
   "fluoxetina", "sertralina", "clonazepam", "diazepam", "prednisona",
   "dexametasona", "cetoprofeno", "nimesulida", "ciprofloxacino",
   "cefalexina", "metronidazol", "ranitidina", "insulina", "aspirina",
   "clopidogrel", "enoxaparina", "furosemida", "espironolactona",
   "salbutamol", "budesonida", "loratadina", "prometazina"]

def ALLERGY_KEYWORDS : List String :=
  ["alergia", "alérgico", "alérgica", "alergias", "intolerância"]

/-- `med.charAt(0).toUpperCase() + med.slice(1)`. -/
def capitalizeStr : Str → Str
  | [] => []
  | c :: cs => jsToUpper c :: cs

/-- Allergen-capture regex at the current position:
`(?:alergia|alérgic[oa]|alergias|intolerância)\s+(?:a\s+|ao?\s+)?([^,.\n]+)`
(case-insensitive).  Only the capture group `match[1]` is consumed by the
engine, so the matcher returns just the captured characters. -/
def alHere (s : Str) : Option Str :=
  let isDelim := fun (c : Char) => c == ',' || c == '.' || c == '\n'
  -- `([^,.\n]+)` greedy; it is the final piece, so the maximal run wins.
  let cap := fun (s2 : Str) =>
    let run := s2.takeWhile (fun c => !isDelim c)
    if run.isEmpty then none else some run
  -- `(?:a\s+|ao?\s+)?` greedy optional group, alternatives in order, then
  -- the empty alternative.
  let grp := fun (s1 : Str) =>
    let g1 :=
      match s1 with
      | c :: s1a =>
        if jsToLower c == 'a' then greedyPlus jsIsSpace cap s1a else none
      | [] => none
    match g1 with
    | some r => some r
    | none =>
      let g2 :=
        match s1 with
        | c :: s1a =>
          if jsToLower c == 'a' then
            match s1a with
            | o :: s1b =>
              if jsToLower o == 'o' then
                match greedyPlus jsIsSpace cap s1b with
                | some r => some r
                | none => greedyPlus jsIsSpace cap s1a
              else greedyPlus jsIsSpace cap s1a
            | [] => greedyPlus jsIsSpace cap s1a
          else none
        | [] => none
      match g2 with
      | some r => some r
      | none => cap s1
  -- keyword alternation in declaration order, `\s+` greedy, then the group.
  let cont := fun (s0 : Str) => greedyPlus jsIsSpace grp s0
  let alt2 := fun (sa : Str) =>
    (litCI "alérgic".data sa).bind fun sb =>
      match sb with
      | c :: sc =>
        if jsToLower c == 'o' || jsToLower c == 'a' then cont sc else none
      | [] => none
  match (litCI "alergia".data s).bind cont with
  | some r => some r
  | none =>
    match alt2 s with
    | some r => some r
    | none =>
      match (litCI "alergias".data s).bind cont with
      | some r => some r
      | none => (litCI "intolerância".data s).bind cont

/-- First allergen capture in a window (leftmost match). -/
def alSearch (w : Str) : Option Str :=
  (searchFrom alHere w).map (·.2)

/-- The allergy-scan loop of `extractClinicalData`, before the sentinel
fallback: for each keyword, find its first occurrence in the lowercased
text; on a hit, run the capture regex over the window from 5 characters
before to 60 characters after the occurrence and collect
`match[1].trim().toUpperCase()`. -/
def collectAllergies (text : Str) (lower : Str) : List Str :=
  ALLERGY_KEYWORDS.foldl
    (fun acc kw =>
      match indexOfSub kw.data lower with
      | some idx =>
        match alSearch (sliceChars text (idx - 5) (idx + 60)) with
        | some cap => acc ++ [upperStr (trimJS cap)]
        | none => acc
      | none => acc)
    []

/-- Sentinel pushed when no allergen was captured. -/
def NKDA_SENTINEL : String := "NADA (NEGA ALERGIAS CONHECIDAS - NKDA)"

def comorbPatterns : List String :=
  ["hipertensão", "diabetes", "asma", "dpoc", "icc", "insuficiência renal",
   "insuficiência cardíaca", "hiv", "hepatite", "obesidade", "dislipidemia",
   "hipotireoidismo", "hipertireoidismo", "epilepsia", "arritmia"]

def severeKeywords : List String :=
  ["iam", "infarto", "avc", "derrame", "sepse", "pcr", "choque",
   "rebaixamento", "coma", "hemorragia", "politrauma", "sdra", "civd",
   "choque séptico", "choque cardiogênico", "tamponamento", "tep",
   "parada cardiorrespiratória", "status epilepticus", "cetoacidose"]

def moderateKeywords : List String :=
  ["febre alta", "dispneia", "falta de ar", "taquicardia",
   "hipotensão", "desidratação", "pneumonia", "fratura",
   "crise hipertensiva", "angina instável", "insuficiência respiratória",
   "rabdomiólise", "edema cerebral"]

/-- Fallback diagnosis `{code: 'R69', desc: 'Causa de morbidade desconhecida'}`. -/
def cidFallback : Cid := ⟨"R69", "Causa de morbidade desconhecida"⟩

structure ClinicalData where
  cid_principal : Cid
  sinais_vitais : SinaisVitais
  medicacoes_atuais : List Str
  alergias : List Str
  comorbidades : List Str
  gravidade : String
deriving Repr

/-- `extractClinicalData(text)`. -/
def extractClinicalData (text : Str) : ClinicalData :=
  let lower := lowerStr text
  let cid_principal := firstCid CID_DATABASE lower
  let sinais_vitais := extractVitalSigns text
  let medicacoes :=
    (MED_PATTERNS.filter (fun med => containsSub med.data lower)).map
      (fun med => capitalizeStr med.data)
  let captured := collectAllergies text lower
  let alergias := if captured.isEmpty then [NKDA_SENTINEL.data] else captured
  let comorbidades :=
    (comorbPatterns.filter (fun c => containsSub c.data lower)).map
      (fun c => capitalizeStr c.data)
  let gravidade :=
    if severeKeywords.any (fun k => containsSub k.data lower) then "Grave"
    else if moderateKeywords.any (fun k => containsSub k.data lower) then "Moderada"
    else "Leve"
  ⟨cid_principal.getD cidFallback, sinais_vitais, medicacoes, alergias,
   comorbidades, gravidade⟩

/-! ### SOAP composition (`buildSOAP`) and the facade (`process`) -/

/-- JS `Array.prototype.join(sep)`. -/
def joinSep (sep : Str) : List Str → Str
  | [] => []
  | [x] => x
  | x :: xs => x ++ sep ++ joinSep sep xs

/-- Exam-keyword test of the Objective `content`:
`/exame|ausculta|palpação|inspeção|vital/i`. -/
def examPat : RE :=
  ralts [rstr "exame", rstr "ausculta", rstr "palpação", rstr "inspeção",
         rstr "vital"]

/-- Exam-keyword test of the `exame_fisico` field (no `vital`):
`/exame|ausculta|palpação|inspeção/i`. -/
def examPat4 : RE :=
  ralts [rstr "exame", rstr "ausculta", rstr "palpação", rstr "inspeção"]

/-- Plan-keyword test:
`/prescrevo|solicito|recomendo|indico|oriento|conduta|plano/i`. -/
def planPat : RE :=
  ralts [rstr "prescrevo", rstr "solicito", rstr "recomendo", rstr "indico",
         rstr "oriento", rstr "conduta", rstr "plano"]

def examTest (l : Str) : Bool := reFind examPat (lowerStr l)

def examTest4 (l : Str) : Bool := reFind examPat4 (lowerStr l)

def planTest (l : Str) : Bool := reFind planPat (lowerStr l)

/-- `${n}` for a parsed integer vital. -/
def natStr (n : Nat) : Str := (toString n).data

/-- `${v}` for the temperature value: every temperature the extractor
produces is a multiple of 1/10, and JS prints `37` for `37.0` and `37.2`
for `37.2`. -/
def tempStr (q : ℚ) : Str :=
  let t : ℤ := (q * 10).num
  if t % 10 = 0 then (toString (t / 10)).data
  else (toString (t / 10)).data ++ ".".data ++ (toString (t % 10)).data

/-- The vitals enumeration parts of the Objective section, in the fixed
order PA, FC, FR, SpO2, Temp (only present fields). -/
def vitalsParts (sv : SinaisVitais) : List Str :=
  (match sv.pa with
   | some p =>
     ["PA ".data ++ natStr p.sistolica ++ "x".data ++ natStr p.diastolica ++
      "mmHg".data]
   | none => []) ++
  (match sv.fc with
   | some m => ["FC ".data ++ natStr m.valor ++ "bpm".data]
   | none => []) ++
  (match sv.fr with
   | some m => ["FR ".data ++ natStr m.valor ++ "irpm".data]
   | none => []) ++
  (match sv.sato2 with
   | some m => ["SpO2 ".data ++ natStr m.valor ++ "%".data]
   | none => []) ++
  (match sv.temperatura with
   | some m => ["Temp ".data ++ tempStr m.valor ++ "°C".data]
   | none => [])

/-- `vitalsStr`: `"Sinais vitais: " + parts.join(', ') + ". "` when any part
is present, else the empty string. -/
def vitalsStr (sv : SinaisVitais) : Str :=
  let parts := vitalsParts sv
  if parts.isEmpty then []
  else "Sinais vitais: ".data ++ joinSep ", ".data parts ++ ". ".data

def objFallback : String := "Exame físico registrado durante consulta."

structure Subjetivo where
  content : Str
  queixa_principal : Str
  hda : Str
deriving Repr

structure Objetivo where
  content : Str
  sinais_vitais : SinaisVitais
  exame_fisico : Str
deriving Repr

structure Avaliacao where
  content : Str
  hipotese_diagnostica : String
  cid10 : String
  diagnosticos_diferenciais : String
deriving Repr

structure Plano where
  content : Str
  prescricoes : List Str
  exames_solicitados : List Str
  orientacoes : String
  encaminhamentos : List Str
deriving Repr

structure Soap where
  subjetivo : Subjetivo
  objetivo : Objetivo
  avaliacao : Avaliacao
  plano : Plano
deriving Repr

/-- The doctor lines of the dialog that pass the five-keyword exam test
(the lines joined into `examStr`). -/
def examLines (dialog : List Utterance) : List Str :=
  ((dialog.filter (fun d => d.speaker == Speaker.medico)).map (·.text)).filter
    examTest

/-- The Objective `content`:
`vitalsStr + (examStr || 'Exame físico registrado durante consulta.')`. -/
def objContent (dialog : List Utterance) (sv : SinaisVitais) : Str :=
  let examStr := joinSep ". ".data (examLines dialog)
  vitalsStr sv ++ (if examStr.isEmpty then objFallback.data else examStr)

/-- `buildSOAP(dialog, clinicalData)` (titles and icons are constant
strings carrying no logic; they are omitted from the record). -/
def buildSOAP (dialog : List Utterance) (cd : ClinicalData) : Soap :=
  let patientLines :=
    (dialog.filter (fun d => d.speaker == Speaker.paciente)).map (·.text)
  let doctorLines :=
    (dialog.filter (fun d => d.speaker == Speaker.medico)).map (·.text)
  let hdaJoin := joinSep ". ".data (patientLines.drop 1)
  let exameJoin := joinSep ". ".data (doctorLines.filter examTest4)
  let planoJoin := joinSep ". ".data (doctorLines.filter planTest)
  { subjetivo :=
      { content :=
          if patientLines.isEmpty then
            "Paciente refere queixa principal conforme transcrição.".data
          else joinSep ". ".data patientLines ++ ".".data
        queixa_principal := (patientLines.head?).getD "Não identificada".data
        hda := if hdaJoin.isEmpty then "Detalhes na transcrição completa.".data
               else hdaJoin }
    objetivo :=
      { content := objContent dialog cd.sinais_vitais
        sinais_vitais := cd.sinais_vitais
        exame_fisico := if exameJoin.isEmpty then "A completar.".data
                        else exameJoin }
    avaliacao :=
      { content :=
          "Hipótese diagnóstica: ".data ++ cd.cid_principal.desc.data ++
            " (".data ++ cd.cid_principal.code.data ++ ")".data
        hipotese_diagnostica := cd.cid_principal.desc
        cid10 := cd.cid_principal.code
        diagnosticos_diferenciais := "A considerar conforme evolução clínica." }
    plano :=
      { content :=
          if planoJoin.isEmpty then
            "Conduta a ser definida pelo médico assistente.".data
          else planoJoin
        prescricoes := cd.medicacoes_atuais
        exames_solicitados := []
        orientacoes := "Retorno conforme agendamento."
        encaminhamentos := [] } }

structure JsonUniversal where
  hdaTecnica : Str
  comorbidades : List Str
  alergias : List Str
  medicacoesAtuais : List Str
deriving Repr

structure Metadata where
  total_falas : Nat
  falas_medico : Nat
  falas_paciente : Nat
  processado_em : String
deriving Repr

structure ProcessOut where
  dialog : List Utterance
  soap : Soap
  clinicalData : ClinicalData
  jsonUniversal : JsonUniversal
  metadata : Metadata
deriving Repr

/-- Result of `process`: either the failure object
`{success: false, error}` or the success aggregate `{success: true, …}`. -/
inductive ProcResult where
  | falha : String → ProcResult
  | ok : ProcessOut → ProcResult
deriving Repr

def insufficientMsg : String :=
  "Texto insuficiente para processamento. Mínimo de 10 caracteres."

/-- `process(rawText)`.  A `none` input models JS `null`/`undefined`
(`!rawText` is also true for the empty string, whose trimmed length is 0,
so the validation coincides).  The impure `new Date().toISOString()` is
modelled by the extra parameter `now`. -/
def process (rawText : Option Str) (now : String) : ProcResult :=
  match rawText with
  | none => .falha insufficientMsg
  | some text =>
    if (trimJS text).length < 10 then .falha insufficientMsg
    else
      let dialog := diarize text
      let clinicalData := extractClinicalData text
      let soap := buildSOAP dialog clinicalData
      .ok
        { dialog := dialog
          soap := soap
          clinicalData := clinicalData
          jsonUniversal :=
            { hdaTecnica := soap.subjetivo.hda
              comorbidades := clinicalData.comorbidades
              alergias := clinicalData.alergias
              medicacoesAtuais := clinicalData.medicacoes_atuais }
          metadata :=
            { total_falas := dialog.length
              falas_medico :=
                (dialog.filter (fun d => d.speaker == Speaker.medico)).length
              falas_paciente :=
                (dialog.filter (fun d => d.speaker == Speaker.paciente)).length
              processado_em := now } }

/-! ### Lemmas about the CID scan -/

theorem firstCid_cons (kw code desc : String) (rest : List (String × String × String))
    (l : Str) :
    firstCid ((kw, code, desc) :: rest) l =
      if containsSub kw.data l then some ⟨code, desc⟩ else firstCid rest l := rfl

theorem firstCid_eq_none (tbl : List (String × String × String)) (l : Str)
    (h : ∀ e ∈ tbl, containsSub e.1.data l = false) : firstCid tbl l = none := by
  induction tbl with
  | nil => rfl
  | cons e rest ih =>
    obtain ⟨kw, code, desc⟩ := e
    rw [firstCid_cons, if_neg (by simp [h (kw, code, desc) (List.mem_cons_self _ _)])]
    exact ih (fun e he => h e (List.mem_cons_of_mem _ he))

theorem firstCid_append (t1 t2 : List (String × String × String)) (l : Str) :
    firstCid (t1 ++ t2) l =
      match firstCid t1 l with
      | some c => some c
      | none => firstCid t2 l := by
  induction t1 with
  | nil => rfl
  | cons e rest ih =>
    obtain ⟨kw, code, desc⟩ := e
    simp only [List.cons_append, firstCid_cons]
    split
    · rfl
    · exact ih

theorem firstCid_mem (tbl : List (String × String × String)) (l : Str) (c : Cid)
    (h : firstCid tbl l = some c) :
    c ∈ tbl.map (fun e => (⟨e.2.1, e.2.2⟩ : Cid)) := by
  induction tbl with
  | nil => exact absurd h (by simp [firstCid])
  | cons e rest ih =>
    obtain ⟨kw, code, desc⟩ := e
    rw [firstCid_cons] at h
    by_cases hs : containsSub kw.data l
    · rw [if_pos hs] at h
      simp [← Option.some_inj.mp h]
    · rw [if_neg hs] at h
      exact List.mem_cons_of_mem _ (ih h)

/-! ### Claim C1 — diagnosis lookup priority -/

/-- C1 (counterexample): the input `"sepse infarto dor no peito"` contains
both `"infarto"` and `"dor no peito"`, yet its diagnosis is the sepsis
entry `A41` — not the myocardial-infarction entry `I21` the claim requires
for every such input — because the table entry `'sepse'` is declared
earlier and matches first. -/
theorem c1_counterexample :
    containsSub "infarto".data (lowerStr "sepse infarto dor no peito".data) = true ∧
    containsSub "dor no peito".data (lowerStr "sepse infarto dor no peito".data) = true ∧
    (extractClinicalData "sepse infarto dor no peito".data).cid_principal.code = "A41" ∧
    (extractClinicalData "sepse infarto dor no peito".data).cid_principal ≠
      ⟨"I21", "Infarto agudo do miocárdio"⟩ := by
  refine ⟨by decide, by decide, ?_, ?_⟩ <;> decide

/-- C1 (amended): the diagnosis lookup scans the CID table in declared
order and returns the `{code, desc}` of the first entry whose keyword is a
case-insensitive substring of the transcript; if no table keyword occurs,
the diagnosis is the fallback `{code: 'R69', desc: 'Causa de morbidade
desconhecida'}`.  For an input containing both `"infarto"` and
`"dor no peito"`, the diagnosis is never the chest-pain entry (code
`R07`), and if moreover no keyword declared before `'infarto'` occurs in
the text, the diagnosis is exactly the myocardial-infarction entry
`{I21, Infarto agudo do miocárdio}`. -/
theorem c1_cid_lookup (t : Str) :
    (extractClinicalData t).cid_principal =
      (firstCid CID_DATABASE (lowerStr t)).getD cidFallback ∧
    ((∀ e ∈ CID_DATABASE, containsSub e.1.data (lowerStr t) = false) →
      (extractClinicalData t).cid_principal = cidFallback) ∧
    (containsSub "infarto".data (lowerStr t) = true →
      (extractClinicalData t).cid_principal.code ≠ "R07" ∧
      ((∀ e ∈ cidBeforeInfarto, containsSub e.1.data (lowerStr t) = false) →
        (extractClinicalData t).cid_principal =
          ⟨"I21", "Infarto agudo do miocárdio"⟩)) := by
  have hdef : (extractClinicalData t).cid_principal =
      (firstCid CID_DATABASE (lowerStr t)).getD cidFallback := rfl
  refine ⟨hdef, ?_, ?_⟩
  · intro h
    rw [hdef, firstCid_eq_none CID_DATABASE (lowerStr t) h]
    rfl
  · intro hinf
    have hsplit : firstCid CID_DATABASE (lowerStr t) =
        match firstCid cidBeforeInfarto (lowerStr t) with
        | some c => some c
        | none => firstCid cidFromInfarto (lowerStr t) :=
      firstCid_append _ _ _
    have hfrom : firstCid cidFromInfarto (lowerStr t) =
        some ⟨"I21", "Infarto agudo do miocárdio"⟩ := by
      show (if containsSub "infarto".data (lowerStr t) then _ else _) = _
      rw [if_pos hinf]
    constructor
    · cases hb : firstCid cidBeforeInfarto (lowerStr t) with
      | some c =>
        have hc := firstCid_mem _ _ _ hb
        have hne : ∀ d ∈ cidBeforeInfarto.map
            (fun e => (⟨e.2.1, e.2.2⟩ : Cid)), d.code ≠ "R07" := by decide
        rw [hdef, hsplit, hb]
        exact hne c hc
      | none =>
        rw [hdef, hsplit, hb, hfrom]
        decide
    · intro hbef
      rw [hdef, hsplit, firstCid_eq_none _ _ hbef, hfrom]
      rfl

/-- C1 (witness): on `"paciente com infarto e dor no peito"` no keyword
declared before `'infarto'` occurs, so the amended theorem yields the
myocardial-infarction diagnosis, whose code differs from `R07`. -/
theorem c1_cid_lookup_witness :
    (extractClinicalData "paciente com infarto e dor no peito".data).cid_principal.code
        ≠ "R07" ∧
    (extractClinicalData "paciente com infarto e dor no peito".data).cid_principal =
      ⟨"I21", "Infarto agudo do miocárdio"⟩ ∧
    (extractClinicalData "xyzzy qwerty 12345".data).cid_principal = cidFallback := by
  have h := (c1_cid_lookup "paciente com infarto e dor no peito".data).2.2 (by decide)
  exact ⟨h.1, h.2 (by decide),
    (c1_cid_lookup "xyzzy qwerty 12345".data).2.1 (by decide)⟩

/-! ### Claim C2 — severity tiers -/

/-- C2: severity checks the severe tier first and the moderate tier only
when no severe keyword matched: any severe-tier keyword in the lowercased
text gives `Grave` regardless of moderate-tier co-occurrences; otherwise a
moderate-tier keyword gives `Moderada`; otherwise `Leve`.  Severity is
always exactly one of these three strings. -/
theorem c2_severity (t : Str) :
    (severeKeywords.any (fun k => containsSub k.data (lowerStr t)) = true →
      (extractClinicalData t).gravidade = "Grave") ∧
    (severeKeywords.any (fun k => containsSub k.data (lowerStr t)) = false →
      moderateKeywords.any (fun k => containsSub k.data (lowerStr t)) = true →
      (extractClinicalData t).gravidade = "Moderada") ∧
    (severeKeywords.any (fun k => containsSub k.data (lowerStr t)) = false →
      moderateKeywords.any (fun k => containsSub k.data (lowerStr t)) = false →
      (extractClinicalData t).gravidade = "Leve") ∧
    ((extractClinicalData t).gravidade = "Leve" ∨
      (extractClinicalData t).gravidade = "Moderada" ∨
      (extractClinicalData t).gravidade = "Grave") := by
  have hdef : (extractClinicalData t).gravidade =
      (if severeKeywords.any (fun k => containsSub k.data (lowerStr t)) then "Grave"
       else if moderateKeywords.any (fun k => containsSub k.data (lowerStr t)) then
         "Moderada"
       else "Leve") := rfl
  rw [hdef]
  refine ⟨fun hs => by rw [if_pos hs], fun hs hm => by rw [if_neg (by simp [hs]), if_pos hm],
    fun hs hm => by rw [if_neg (by simp [hs]), if_neg (by simp [hm])], ?_⟩
  split
  · exact Or.inr (Or.inr rfl)
  · split
    · exact Or.inr (Or.inl rfl)
    · exact Or.inl rfl

/-- C2 (witness): `"sepse e dispneia"` contains the severe keyword
`"sepse"` and the moderate keyword `"dispneia"`, and classifies `Grave`. -/
theorem c2_severity_witness :
    (extractClinicalData "sepse e dispneia".data).gravidade = "Grave" ∧
    moderateKeywords.any
      (fun k => containsSub k.data (lowerStr "sepse e dispneia".data)) = true := by
  exact ⟨(c2_severity "sepse e dispneia".data).1 (by decide), by decide⟩

/-! ### Claim C3 — input gate of `process` -/

/-- C3: `process` returns the structured failure value (with the
insufficient-input error string) exactly when the raw text is null/absent
or its whitespace-trimmed length is below 10; in that case the result
carries nothing but the error string (by the shape of `ProcResult.falha`),
and for every other input `process` returns the success aggregate built
from diarization, extraction and SOAP composition.  `process` is a total
function, so no exception is ever thrown. -/
theorem c3_gate (t : Option Str) (now : String) :
    (process t now = .falha insufficientMsg ↔
      (t = none ∨ ∃ s, t = some s ∧ (trimJS s).length < 10)) ∧
    (∀ e, process t now = .falha e → e = insufficientMsg) ∧
    (∀ s, t = some s → ¬ (trimJS s).length < 10 →
      ∃ r, process t now = .ok r ∧ r.dialog = diarize s ∧
        r.clinicalData = extractClinicalData s ∧
        r.soap = buildSOAP (diarize s) (extractClinicalData s)) := by
  refine ⟨?_, ?_, ?_⟩
  · constructor
    · intro h
      cases t with
      | none => exact Or.inl rfl
      | some s =>
        refine Or.inr ⟨s, rfl, ?_⟩
        by_contra hlen
        simp only [process, if_neg hlen] at h
        exact ProcResult.noConfusion h
    · intro h
      rcases h with h | ⟨s, rfl, hlen⟩
      · rw [h]; rfl
      · simp only [process, if_pos hlen]
  · intro e he
    cases t with
    | none =>
      simp only [process] at he
      injection he with h
      exact h.symm
    | some s =>
      by_cases hlen : (trimJS s).length < 10
      · simp only [process, if_pos hlen] at he
        injection he with h
        exact h.symm
      · simp only [process, if_neg hlen] at he
        exact ProcResult.noConfusion he
  · rintro s rfl hlen
    simp only [process, if_neg hlen]
    exact ⟨_, rfl, rfl, rfl, rfl⟩

/-- C3 (witness): `"oi"` (trimmed length 2) fails with the error string;
`"dor de cabeça forte"` (trimmed length 19) succeeds with the full
aggregate. -/
theorem c3_gate_witness :
    process (some "oi".data) "t0" = .falha insufficientMsg ∧
    ∃ r, process (some "dor de cabeça forte".data) "t0" = .ok r ∧
      r.dialog = diarize "dor de cabeça forte".data ∧
      r.clinicalData = extractClinicalData "dor de cabeça forte".data ∧
      r.soap = buildSOAP (diarize "dor de cabeça forte".data)
        (extractClinicalData "dor de cabeça forte".data) := by
  exact ⟨(c3_gate (some "oi".data) "t0").1.mpr (Or.inr ⟨_, rfl, by decide⟩),
    (c3_gate (some "dor de cabeça forte".data) "t0").2.2 _ rfl (by decide)⟩

/-! ### Claim C9 — determinism of the clinical outputs -/

/-- Replace the (impure) timestamp by a constant; everything else of the
result is kept. -/
def stripTime : ProcResult → ProcResult
  | .falha e => .falha e
  | .ok r => .ok { r with metadata := { r.metadata with processado_em := "" } }

/-- C9: `process` is deterministic on everything except the timestamp: two
invocations on identical input (modelled by distinct `now` values, the
only impure ingredient) agree on the entire result — in particular on the
diagnosis, the vital signs, the severity and the per-utterance speaker
tags in order — once the timestamp field is blanked. -/
theorem c9_determinism (t : Option Str) (n1 n2 : String) :
    stripTime (process t n1) = stripTime (process t n2) := by
  cases t with
  | none => rfl
  | some s =>
    simp only [process]
    split <;> rfl

/-! ### Claim C8 — medications list -/

/-- Capitalization is injective on the medication vocabulary. -/
theorem medCapInj : ∀ m ∈ MED_PATTERNS, ∀ m2 ∈ MED_PATTERNS,
    capitalizeStr m.data = capitalizeStr m2.data → m = m2 := by decide

/-- The capitalized medication vocabulary has no duplicates. -/
theorem medCapNodup : (MED_PATTERNS.map (fun m => capitalizeStr m.data)).Nodup := by
  decide

/-- C8: the medications list contains the capitalized form of a vocabulary
entry iff that entry occurs (case-insensitively) as a substring of the
text; the list is a sublist of the capitalized vocabulary in declaration
order (so output order is vocabulary order, not transcript order); and the
list never contains duplicates. -/
theorem c8_medications (t : Str) :
    (∀ med ∈ MED_PATTERNS,
      (capitalizeStr med.data ∈ (extractClinicalData t).medicacoes_atuais ↔
        containsSub med.data (lowerStr t) = true)) ∧
    (extractClinicalData t).medicacoes_atuais.Sublist
      (MED_PATTERNS.map (fun m => capitalizeStr m.data)) ∧
    (extractClinicalData t).medicacoes_atuais.Nodup := by
  have hdef : (extractClinicalData t).medicacoes_atuais =
      (MED_PATTERNS.filter (fun med => containsSub med.data (lowerStr t))).map
        (fun med => capitalizeStr med.data) := rfl
  have hsub : (extractClinicalData t).medicacoes_atuais.Sublist
      (MED_PATTERNS.map (fun m => capitalizeStr m.data)) := by
    rw [hdef]
    exact (List.filter_sublist _).map _
  refine ⟨?_, hsub, hsub.nodup medCapNodup⟩
  intro med hmed
  constructor
  · intro hin
    rw [hdef] at hin
    obtain ⟨m2, hm2, heq⟩ := List.mem_map.mp hin
    obtain ⟨hm2mem, hm2sub⟩ := List.mem_filter.mp hm2
    rwa [← medCapInj m2 hm2mem med hmed heq]
  · intro hsubst
    rw [hdef]
    exact List.mem_map.mpr ⟨med, List.mem_filter.mpr ⟨hmed, hsubst⟩, rfl⟩

/-- C8 (witness): in `"tomo losartana 50mg e metformina"` exactly the
mentioned vocabulary entries appear, capitalized, and `"Dipirona"` is
absent. -/
theorem c8_medications_witness :
    capitalizeStr "losartana".data ∈
      (extractClinicalData "tomo losartana 50mg e metformina".data).medicacoes_atuais ∧
    capitalizeStr "dipirona".data ∉
      (extractClinicalData "tomo losartana 50mg e metformina".data).medicacoes_atuais := by
  refine ⟨((c8_medications _).1 "losartana" (by decide)).mpr (by decide), ?_⟩
  intro hin
  exact absurd (((c8_medications _).1 "dipirona" (by decide)).mp hin) (by decide)

/-! ### Claim C4 — allergies list and the NKDA sentinel -/

/-- C4 (counterexample): on
`"alergia NADA (NEGA ALERGIAS CONHECIDAS - NKDA)"` the capture regex
captures allergens after both `'alergia'` and `'alergias'`, so at least
one allergen is captured — yet the string equal to the sentinel appears in
the allergies list (as the first captured allergen), contradicting the
claim that the sentinel never appears when a capture occurred. -/
theorem c4_counterexample :
    collectAllergies "alergia NADA (NEGA ALERGIAS CONHECIDAS - NKDA)".data
      (lowerStr "alergia NADA (NEGA ALERGIAS CONHECIDAS - NKDA)".data) ≠ [] ∧
    NKDA_SENTINEL.data ∈
      (extractClinicalData
        "alergia NADA (NEGA ALERGIAS CONHECIDAS - NKDA)".data).alergias := by
  refine ⟨by decide, by decide⟩

/-- C4 (amended): the allergies list is never empty; when no allergy
keyword yields a captured allergen it is exactly the one-element sentinel
list; and when at least one allergen is captured the list is exactly the
captured allergens — the sentinel fallback is not appended (although a
captured allergen may itself coincide with the sentinel text). -/
theorem c4_allergies (t : Str) :
    (extractClinicalData t).alergias ≠ [] ∧
    (collectAllergies t (lowerStr t) = [] →
      (extractClinicalData t).alergias = [NKDA_SENTINEL.data]) ∧
    (collectAllergies t (lowerStr t) ≠ [] →
      (extractClinicalData t).alergias = collectAllergies t (lowerStr t)) := by
  have hdef : (extractClinicalData t).alergias =
      (if (collectAllergies t (lowerStr t)).isEmpty then [NKDA_SENTINEL.data]
       else collectAllergies t (lowerStr t)) := rfl
  by_cases h : collectAllergies t (lowerStr t) = []
  · rw [hdef, if_pos (by simp [h])]
    exact ⟨by simp, fun _ => rfl, fun hc => absurd h hc⟩
  · rw [hdef, if_neg (by simp [h])]
    exact ⟨h, fun hc => absurd hc h, fun _ => rfl⟩

/-- C4 (witness): `"dor de cabeça forte"` has no allergy keyword, so its
allergies list is exactly the sentinel; on the counterexample text a
capture occurred and the list equals the captured allergens. -/
theorem c4_allergies_witness :
    (extractClinicalData "dor de cabeça forte".data).alergias =
      [NKDA_SENTINEL.data] ∧
    (extractClinicalData
        "alergia NADA (NEGA ALERGIAS CONHECIDAS - NKDA)".data).alergias =
      collectAllergies "alergia NADA (NEGA ALERGIAS CONHECIDAS - NKDA)".data
        (lowerStr "alergia NADA (NEGA ALERGIAS CONHECIDAS - NKDA)".data) := by
  exact ⟨(c4_allergies "dor de cabeça forte".data).2.1 (by decide),
    (c4_allergies "alergia NADA (NEGA ALERGIAS CONHECIDAS - NKDA)".data).2.2
      (by decide)⟩

/-! ### Claim C5 — vital-sign extraction -/

/-- C5: on the input `"PA 150x95, FC 92bpm, SpO2 97%, Temp 37.2"` the
extractor yields PA 150/95, heart rate 92, SpO2 97, temperature 37.2 and
no respiratory rate; and in general each of the five fields is `null`
exactly when its label regex has no match anywhere in the text (absent
vitals are never inferred or defaulted). -/
theorem c5_vitals :
    (extractVitalSigns "PA 150x95, FC 92bpm, SpO2 97%, Temp 37.2".data).pa =
      some ⟨150, 95, "PA 150x95".data⟩ ∧
    (extractVitalSigns "PA 150x95, FC 92bpm, SpO2 97%, Temp 37.2".data).fc =
      some ⟨92, "FC 92bpm".data⟩ ∧
    (extractVitalSigns "PA 150x95, FC 92bpm, SpO2 97%, Temp 37.2".data).sato2 =
      some ⟨97, "SpO2 97%".data⟩ ∧
    (extractVitalSigns "PA 150x95, FC 92bpm, SpO2 97%, Temp 37.2".data).temperatura =
      some ⟨(372 : ℚ) / 10, "Temp 37.2".data⟩ ∧
    (extractVitalSigns "PA 150x95, FC 92bpm, SpO2 97%, Temp 37.2".data).fr = none ∧
    (∀ text : Str,
      ((extractVitalSigns text).pa = none ↔
        (searchFrom paHere1 text = none ∧ searchFrom paHere2 text = none)) ∧
      ((extractVitalSigns text).fc = none ↔ searchFrom fcHere text = none) ∧
      ((extractVitalSigns text).temperatura = none ↔
        searchFrom tempHere text = none) ∧
      ((extractVitalSigns text).sato2 = none ↔ searchFrom satHere text = none) ∧
      ((extractVitalSigns text).fr = none ↔ searchFrom frHere text = none)) := by
  have htemp :
      (extractVitalSigns "PA 150x95, FC 92bpm, SpO2 97%, Temp 37.2".data).temperatura =
        some ⟨((37 : ℕ) : ℚ) + ((2 : ℕ) : ℚ) / 10, "Temp 37.2".data⟩ := rfl
  refine ⟨by decide, by decide, by decide, ?_, by decide, ?_⟩
  · rw [htemp, Option.some_inj, MedidaTemp.mk.injEq]
    norm_num
  intro text
  refine ⟨?_, ?_, ?_, ?_, ?_⟩
  · cases h1 : searchFrom paHere1 text with
    | some r =>
      obtain ⟨i, rest, sys, dia⟩ := r
      simp [extractVitalSigns, h1]
    | none =>
      cases h2 : searchFrom paHere2 text with
      | some r =>
        obtain ⟨i, rest, sys, dia⟩ := r
        simp [extractVitalSigns, h1, h2]
      | none => simp [extractVitalSigns, h1, h2]
  · cases h : searchFrom fcHere text with
    | some r => obtain ⟨i, rest, v⟩ := r; simp [extractVitalSigns, h]
    | none => simp [extractVitalSigns, h]
  · cases h : searchFrom tempHere text with
    | some r => obtain ⟨i, rest, v⟩ := r; simp [extractVitalSigns, h]
    | none => simp [extractVitalSigns, h]
  · cases h : searchFrom satHere text with
    | some r => obtain ⟨i, rest, v⟩ := r; simp [extractVitalSigns, h]
    | none => simp [extractVitalSigns, h]
  · cases h : searchFrom frHere text with
    | some r => obtain ⟨i, rest, v⟩ := r; simp [extractVitalSigns, h]
    | none => simp [extractVitalSigns, h]

/-! ### Claim C7 — diarization classification rule -/

/-- C7: every retained transcript line is tagged `medico` when
`docScore > patScore`, `paciente` when `patScore > docScore`, and on a tie
(including 0–0) `paciente` exactly when the line is longer than 60
characters, else `medico`. -/
theorem c7_classifier (raw : Str) (u : Utterance) (hu : u ∈ diarize raw) :
    u.speaker =
      (if docScore u.text > patScore u.text then Speaker.medico
       else if patScore u.text > docScore u.text then Speaker.paciente
       else if u.text.length > 60 then Speaker.paciente
       else Speaker.medico) := by
  obtain ⟨line, _, he⟩ := List.mem_map.mp hu
  cases he
  rfl

/-- C7 (witness): the single retained line of `"sinto dor forte"` has
`patScore = 1 > docScore = 0` and is tagged `paciente`, as the classifier
theorem dictates. -/
theorem c7_classifier_witness :
    (⟨Speaker.paciente, "sinto dor forte".data⟩ : Utterance).speaker =
      (if docScore "sinto dor forte".data > patScore "sinto dor forte".data then
        Speaker.medico
       else if patScore "sinto dor forte".data > docScore "sinto dor forte".data then
        Speaker.paciente
       else if "sinto dor forte".data.length > 60 then Speaker.paciente
       else Speaker.medico) :=
  c7_classifier "sinto dor forte".data
    ⟨Speaker.paciente, "sinto dor forte".data⟩ (by decide)

/-! ### Claim C10 — no `indefinido` speaker; metadata counts add up -/

/-- Metadata consistency of a processing result: on success the doctor and
patient utterance counts sum to the total; failures carry no metadata. -/
def metaConsistent : ProcResult → Prop
  | .falha _ => True
  | .ok r =>
    r.metadata.falas_medico + r.metadata.falas_paciente = r.metadata.total_falas

theorem speakerFilterLen (d : List Utterance)
    (h : ∀ u ∈ d, u.speaker ≠ Speaker.indefinido) :
    (d.filter (fun u => u.speaker == Speaker.medico)).length +
      (d.filter (fun u => u.speaker == Speaker.paciente)).length = d.length := by
  induction d with
  | nil => rfl
  | cons u rest ih =>
    have hu := h u (List.mem_cons_self _ _)
    have hr := ih (fun v hv => h v (List.mem_cons_of_mem _ hv))
    cases hsp : u.speaker with
    | medico =>
      simp [List.filter_cons, hsp]
      omega
    | paciente =>
      simp [List.filter_cons, hsp]
      omega
    | indefinido => exact absurd hsp hu

/-- C10: the classifier never outputs `indefinido` — every utterance is
tagged `medico` or `paciente` (so filtering out `indefinido` lines removes
nothing) — and consequently, in every successful result,
`falas_medico + falas_paciente = total_falas`. -/
theorem c10_no_indefinido (raw : Str) :
    (∀ u ∈ diarize raw, u.speaker ≠ Speaker.indefinido) ∧
    (diarize raw).filter (fun u => u.speaker != Speaker.indefinido) = diarize raw ∧
    (∀ now : String, metaConsistent (process (some raw) now)) := by
  have h1 : ∀ u ∈ diarize raw, u.speaker ≠ Speaker.indefinido := by
    intro u hu
    obtain ⟨line, _, he⟩ := List.mem_map.mp hu
    cases he
    show classifyLine line ≠ Speaker.indefinido
    simp only [classifyLine]
    split_ifs <;> simp
  refine ⟨h1, ?_, ?_⟩
  · exact List.filter_eq_self.mpr (fun u hu => by simp [bne_iff_ne, h1 u hu])
  · intro now
    by_cases hlen : (trimJS raw).length < 10
    · simp only [process, if_pos hlen]
      trivial
    · simp only [process, if_neg hlen]
      exact speakerFilterLen (diarize raw) h1

/-- C10 (witness): the single utterance of `"dor infarto agora"` is tagged
`medico` (not `indefinido`), and the metadata of its processed result is
consistent. -/
theorem c10_no_indefinido_witness :
    (⟨Speaker.medico, "dor infarto agora".data⟩ : Utterance).speaker ≠
      Speaker.indefinido ∧
    metaConsistent (process (some "dor infarto agora".data) "t0") :=
  ⟨(c10_no_indefinido "dor infarto agora".data).1
      ⟨Speaker.medico, "dor infarto agora".data⟩ (by decide),
    (c10_no_indefinido "dor infarto agora".data).2.2 "t0"⟩

/-! ### Lemmas for the Objective-section claim -/

theorem mem_trimJS {c : Char} {l : Str} (h : c ∈ trimJS l) : c ∈ l := by
  unfold trimJS at h
  rw [List.mem_reverse] at h
  have h2 := List.Sublist.mem h (List.dropWhile_sublist _)
  rw [List.mem_reverse] at h2
  exact List.Sublist.mem h2 (List.dropWhile_sublist _)

theorem splitRunsAux_clean (s : Str) :
    ∀ cur : Str, (∀ c ∈ cur, isSepDot c = false) →
      ∀ l ∈ splitRunsAux cur s, ∀ c ∈ l, isSepDot c = false := by
  induction s with
  | nil =>
    intro cur hc l hl c hcl
    simp only [splitRunsAux] at hl
    split at hl
    · exact absurd hl (List.not_mem_nil _)
    · rw [List.mem_singleton] at hl
      subst hl
      exact hc c (List.mem_reverse.mp hcl)
  | cons a as ih =>
    intro cur hc l hl c hcl
    simp only [splitRunsAux] at hl
    by_cases ha : isSepDot a
    · rw [if_pos ha] at hl
      by_cases hce : cur.isEmpty
      · rw [if_pos hce] at hl
        exact ih [] (by simp) l hl c hcl
      · rw [if_neg hce] at hl
        rcases List.mem_cons.mp hl with hl | hl
        · subst hl
          exact hc c (List.mem_reverse.mp hcl)
        · exact ih [] (by simp) l hl c hcl
    · rw [if_neg ha] at hl
      refine ih (a :: cur) ?_ l hl c hcl
      intro d hd
      rcases List.mem_cons.mp hd with hd | hd
      · subst hd; simpa using ha
      · exact hc d hd

/-- Every retained transcript line is non-empty and contains no sentence
separator (in particular no `'.'`). -/
theorem transcriptLines_clean (raw : Str) :
    ∀ l ∈ transcriptLines raw, l ≠ [] ∧ '.' ∉ l := by
  intro l hl
  obtain ⟨hmem, hlen⟩ := List.mem_filter.mp hl
  obtain ⟨r, hr, hrl⟩ := List.mem_map.mp hmem
  constructor
  · intro hnil
    rw [hnil] at hlen
    simp at hlen
  · intro hdot
    have hdr : '.' ∈ r := by
      rw [← hrl] at hdot
      exact mem_trimJS hdot
    have := splitRunsAux_clean raw [] (by simp) r hr '.' hdr
    simp [isSepDot] at this

/-- The texts of the dialog produced by `diarize` are retained transcript
lines. -/
theorem dialog_text_mem (raw : Str) (u : Utterance) (hu : u ∈ diarize raw) :
    u.text ∈ transcriptLines raw := by
  obtain ⟨line, hl, he⟩ := List.mem_map.mp hu
  cases he
  exact hl

theorem examLines_mem (raw : Str) (l : Str) (hl : l ∈ examLines (diarize raw)) :
    l ∈ transcriptLines raw := by
  obtain ⟨hm, _⟩ := List.mem_filter.mp hl
  obtain ⟨u, hu, he⟩ := List.mem_map.mp hm
  cases he
  exact dialog_text_mem raw u (List.Sublist.mem hu (List.filter_sublist _))

theorem joinSep_ne_nil (sep : Str) (ls : List Str) (h0 : ls ≠ [])
    (h1 : ∀ l ∈ ls, l ≠ []) : joinSep sep ls ≠ [] := by
  match ls with
  | [] => exact absurd rfl h0
  | [x] => simpa [joinSep] using h1 x (List.mem_singleton.mpr rfl)
  | x :: y :: t =>
    simp only [joinSep]
    intro hc
    rw [List.append_eq_nil, List.append_eq_nil] at hc
    exact absurd hc.1.1 (h1 x (List.mem_cons_self _ _))

theorem joinSep_getLast (sep : Str) (ls : List Str) (h0 : ls ≠ [])
    (h1 : ∀ l ∈ ls, l ≠ []) :
    ∃ lst ∈ ls, (joinSep sep ls).getLast? = lst.getLast? := by
  match ls with
  | [] => exact absurd rfl h0
  | [x] => exact ⟨x, List.mem_singleton.mpr rfl, rfl⟩
  | x :: y :: t =>
    obtain ⟨lst, hlst, hlast⟩ := joinSep_getLast sep (y :: t) (by simp)
      (fun l hl => h1 l (List.mem_cons_of_mem _ hl))
    refine ⟨lst, List.mem_cons_of_mem _ hlst, ?_⟩
    have hne : joinSep sep (y :: t) ≠ [] :=
      joinSep_ne_nil sep (y :: t) (by simp)
        (fun l hl => h1 l (List.mem_cons_of_mem _ hl))
    show ((x ++ sep) ++ joinSep sep (y :: t)).getLast? = lst.getLast?
    rw [List.getLast?_append,
      Option.or_of_isSome (List.getLast?_isSome.mpr hne), hlast]

/-- The joined exam lines never equal the Objective fallback sentence: the
fallback ends in `'.'` while transcript lines contain no `'.'`. -/
theorem examStr_ne_fallback (raw : Str) (hne : examLines (diarize raw) ≠ []) :
    joinSep ". ".data (examLines (diarize raw)) ≠ objFallback.data := by
  have h1 : ∀ l ∈ examLines (diarize raw), l ≠ [] :=
    fun l hl => (transcriptLines_clean raw l (examLines_mem raw l hl)).1
  obtain ⟨lst, hlst, hlast⟩ := joinSep_getLast ". ".data _ hne h1
  intro hc
  rw [hc] at hlast
  have hdot : objFallback.data.getLast? = some '.' := by decide
  rw [hdot] at hlast
  have : '.' ∈ lst := List.mem_of_mem_getLast? hlast.symm
  exact (transcriptLines_clean raw lst (examLines_mem raw lst hlst)).2 this

theorem vitalsStr_empty_iff (sv : SinaisVitais) :
    vitalsStr sv = [] ↔ vitalsParts sv = [] := by
  unfold vitalsStr
  by_cases h : (vitalsParts sv).isEmpty
  · simp only [if_pos h]
    simpa using List.isEmpty_iff.mp h
  · simp only [if_neg h]
    constructor
    · intro hc
      rw [List.append_eq_nil, List.append_eq_nil] at hc
      exact absurd hc.1.1 (by simp)
    · intro hc
      exact absurd (List.isEmpty_iff.mpr hc) h

theorem vitalsParts_nil_iff (sv : SinaisVitais) :
    vitalsParts sv = [] ↔
      (sv.pa = none ∧ sv.fc = none ∧ sv.fr = none ∧ sv.sato2 = none ∧
        sv.temperatura = none) := by
  obtain ⟨pa, fc, temp, sat, fr⟩ := sv
  cases pa <;> cases fc <;> cases temp <;> cases sat <;> cases fr <;>
    simp [vitalsParts]

/-- When some vital is present `vitalsStr` starts with `'S'`. -/
theorem vitalsStr_cons (sv : SinaisVitais) (h : vitalsParts sv ≠ []) :
    ∃ rest, vitalsStr sv = 'S' :: rest := by
  unfold vitalsStr
  rw [if_neg (fun hc => h (List.isEmpty_iff.mp hc))]
  exact ⟨_, rfl⟩

/-- A content string starting with the vitals enumeration differs from the
fallback sentence (`'S'` vs `'E'`). -/
theorem vitals_content_ne_fallback (sv : SinaisVitais) (X : Str)
    (h : vitalsParts sv ≠ []) : vitalsStr sv ++ X ≠ objFallback.data := by
  obtain ⟨rest, hr⟩ := vitalsStr_cons sv h
  rw [hr, List.cons_append]
  have hf : objFallback.data =
      'E' :: "xame físico registrado durante consulta.".data := rfl
  rw [hf]
  intro hc
  injection hc with h1 _
  exact absurd h1 (by decide)

/-! ### Claim C6 — Objective-section content -/

/-- C6 (counterexample): on `"Paciente com PA 150x95 hoje"` a vital (PA)
is present and no doctor line matches the exam keywords, and the Objective
content is the vitals enumeration *followed by the fallback sentence* —
the fallback appears even though a vital is present, contradicting the
claim that content is then vitals and/or matching lines without the
fallback sentence. -/
theorem c6_counterexample :
    (extractClinicalData "Paciente com PA 150x95 hoje".data).sinais_vitais.pa ≠
      none ∧
    examLines (diarize "Paciente com PA 150x95 hoje".data) = [] ∧
    (buildSOAP (diarize "Paciente com PA 150x95 hoje".data)
        (extractClinicalData "Paciente com PA 150x95 hoje".data)).objetivo.content =
      "Sinais vitais: PA 150x95mmHg. ".data ++ objFallback.data ∧
    containsSub objFallback.data
      (buildSOAP (diarize "Paciente com PA 150x95 hoje".data)
        (extractClinicalData
          "Paciente com PA 150x95 hoje".data)).objetivo.content = true := by
  refine ⟨by decide, by decide, by decide, by decide⟩

/-- C6 (amended): the Objective content equals the fallback sentence iff
no vital-sign field is present and no doctor line matches the exam
keywords; when at least one doctor line matches, the content is the vitals
enumeration (empty when no vitals) followed by the joined matching lines,
without the fallback; but when vitals are present and no doctor line
matches, the content is the vitals enumeration followed by the fallback
sentence. -/
theorem c6_objective (raw : Str) :
    ((buildSOAP (diarize raw) (extractClinicalData raw)).objetivo.content =
        objFallback.data ↔
      (((extractClinicalData raw).sinais_vitais.pa = none ∧
        (extractClinicalData raw).sinais_vitais.fc = none ∧
        (extractClinicalData raw).sinais_vitais.fr = none ∧
        (extractClinicalData raw).sinais_vitais.sato2 = none ∧
        (extractClinicalData raw).sinais_vitais.temperatura = none) ∧
        examLines (diarize raw) = [])) ∧
    (examLines (diarize raw) ≠ [] →
      (buildSOAP (diarize raw) (extractClinicalData raw)).objetivo.content =
        vitalsStr (extractClinicalData raw).sinais_vitais ++
          joinSep ". ".data (examLines (diarize raw))) ∧
    (examLines (diarize raw) = [] →
      (buildSOAP (diarize raw) (extractClinicalData raw)).objetivo.content =
        vitalsStr (extractClinicalData raw).sinais_vitais ++ objFallback.data) := by
  have hdef : (buildSOAP (diarize raw) (extractClinicalData raw)).objetivo.content =
      vitalsStr (extractClinicalData raw).sinais_vitais ++
        (if (joinSep ". ".data (examLines (diarize raw))).isEmpty then
          objFallback.data
         else joinSep ". ".data (examLines (diarize raw))) := rfl
  by_cases he : examLines (diarize raw) = []
  · have hj : joinSep ". ".data (examLines (diarize raw)) = [] := by
      rw [he]; rfl
    have hcontent : (buildSOAP (diarize raw)
        (extractClinicalData raw)).objetivo.content =
        vitalsStr (extractClinicalData raw).sinais_vitais ++ objFallback.data := by
      rw [hdef, hj]; rfl
    refine ⟨?_, fun hne => absurd he hne, fun _ => hcontent⟩
    rw [hcontent]
    constructor
    · intro hc
      have hv : vitalsStr (extractClinicalData raw).sinais_vitais = [] :=
        List.self_eq_append_left.mp hc.symm
      exact ⟨(vitalsParts_nil_iff _).mp ((vitalsStr_empty_iff _).mp hv), he⟩
    · rintro ⟨hnone, _⟩
      rw [(vitalsStr_empty_iff _).mpr ((vitalsParts_nil_iff _).mpr hnone)]
      rfl
  · have hjoin : joinSep ". ".data (examLines (diarize raw)) ≠ [] :=
      joinSep_ne_nil _ _ he
        (fun l hl => (transcriptLines_clean raw l (examLines_mem raw l hl)).1)
    have hcontent : (buildSOAP (diarize raw)
        (extractClinicalData raw)).objetivo.content =
        vitalsStr (extractClinicalData raw).sinais_vitais ++
          joinSep ". ".data (examLines (diarize raw)) := by
      rw [hdef, if_neg (by simpa using hjoin)]
    refine ⟨?_, fun _ => hcontent, fun hc => absurd hc he⟩
    rw [hcontent]
    constructor
    · intro hc
      exfalso
      by_cases hp : vitalsParts (extractClinicalData raw).sinais_vitais = []
      · rw [(vitalsStr_empty_iff _).mpr hp, List.nil_append] at hc
        exact examStr_ne_fallback raw he hc
      · exact vitals_content_ne_fallback _ _ hp hc
    · rintro ⟨_, hcontra⟩
      exact absurd hcontra he

/-- C6 (witness): on `"Vou solicitar exame físico completo"` the only line
is a doctor line matching the exam keywords, there are no vitals, and the
content is exactly that line (no fallback); on the counterexample input
the matching lines are empty and the content ends with the fallback. -/
theorem c6_objective_witness :
    (buildSOAP (diarize "Vou solicitar exame físico completo".data)
        (extractClinicalData "Vou solicitar exame físico completo".data)).objetivo.content =
      vitalsStr (extractClinicalData
          "Vou solicitar exame físico completo".data).sinais_vitais ++
        joinSep ". ".data
          (examLines (diarize "Vou solicitar exame físico completo".data)) ∧
    (buildSOAP (diarize "Paciente com PA 150x95 hoje".data)
        (extractClinicalData "Paciente com PA 150x95 hoje".data)).objetivo.content =
      vitalsStr (extractClinicalData
          "Paciente com PA 150x95 hoje".data).sinais_vitais ++ objFallback.data :=
  ⟨(c6_objective "Vou solicitar exame físico completo".data).2.1 (by decide),
   (c6_objective "Paciente com PA 150x95 hoje".data).2.2 (by decide)⟩
